import Mathlib

/-!
Verification development for the CV ranking pipeline
(`core/openai_client.py`, `core/ranking_engine.py`, `config.py`).

The Python code is shallowly embedded: dictionaries that hold decoded JSON
become the inductive `Json` below; `json.loads` becomes the total decoder
`jsonDecode`; functions that can raise are modelled with `Option`/`Except`;
Python numbers (ints and floats) are modelled as exact rationals `ℚ`
(the claim numerals such as 0.4 and 7.6 are decimal, so the rational model
evaluates them exactly); machine-level float rounding is outside the model.
-/

namespace CvRank

/-! ### Characters used by the JSON grammar -/

def quoteChar : Char := Char.ofNat 34

def backslashChar : Char := Char.ofNat 92

def lbraceChar : Char := Char.ofNat 123

def rbraceChar : Char := Char.ofNat 125

/-! ### JSON values

`Json` models the result of Python's `json.loads`: `null`, booleans,
numbers (as `ℚ`), strings, lists and dicts (association lists in
insertion order, duplicate keys resolved last-wins as in Python). -/

inductive Json where
  | null : Json
  | bool (b : Bool) : Json
  | num (q : ℚ) : Json
  | str (s : String) : Json
  | arr (elems : List Json) : Json
  | obj (fields : List (String × Json)) : Json

/-- Dict lookup: `fields[k]` as an `Option`. -/
def lookupField (fields : List (String × Json)) (k : String) : Option Json :=
  (fields.find? (fun p => p.1 == k)).map (fun p => p.2)

/-- `k in j` for a dict; `false` on every other shape (callers that can reach
a non-dict use `pyInStr` below, which models the `TypeError`). -/
def hasKey (j : Json) (k : String) : Bool :=
  match j with
  | Json.obj fs => (fs.find? (fun p => p.1 == k)).isSome
  | _ => false

/-- Python dict insertion while decoding an object: a repeated key overwrites
the earlier value in place, otherwise the pair is appended. -/
def insertMember (fields : List (String × Json)) (k : String) (v : Json) :
    List (String × Json) :=
  if (fields.find? (fun p => p.1 == k)).isSome then
    fields.map (fun p => if p.1 == k then (k, v) else p)
  else fields ++ [(k, v)]

/-! ### `json.loads`

A recursive-descent decoder for the JSON accepted by Python's strict
`json.loads`: the six value forms, `\uXXXX` and the single-character
escapes, no raw control characters inside strings, no leading zeros,
whole-input consumption (trailing garbage fails, like `json.loads`).
Python's non-standard extras (`NaN`, `Infinity`, surrogate-pair joining)
are not modelled; no claim input involves them. -/

def isJsonWs (c : Char) : Bool :=
  c = ' ' || c = '\t' || c = '\n' || c = '\r'

def skipJWs (cs : List Char) : List Char := cs.dropWhile isJsonWs

def hexVal (c : Char) : Option Nat :=
  if '0' ≤ c ∧ c ≤ '9' then some (c.toNat - 48)
  else if 'a' ≤ c ∧ c ≤ 'f' then some (c.toNat - 87)
  else if 'A' ≤ c ∧ c ≤ 'F' then some (c.toNat - 70)
  else none

/-- Parse the body of a JSON string (opening quote already consumed),
returning the decoded characters and the rest of the input. -/
def parseJString : List Char → Option (List Char × List Char)
  | [] => none
  | c :: rest =>
    if c = quoteChar then some ([], rest)
    else if c = backslashChar then
      match rest with
      | [] => none
      | e :: rest2 =>
        if e = quoteChar then
          (parseJString rest2).map (fun p => (quoteChar :: p.1, p.2))
        else if e = backslashChar then
          (parseJString rest2).map (fun p => (backslashChar :: p.1, p.2))
        else if e = '/' then
          (parseJString rest2).map (fun p => ('/' :: p.1, p.2))
        else if e = 'b' then
          (parseJString rest2).map (fun p => (Char.ofNat 8 :: p.1, p.2))
        else if e = 'f' then
          (parseJString rest2).map (fun p => (Char.ofNat 12 :: p.1, p.2))
        else if e = 'n' then
          (parseJString rest2).map (fun p => ('\n' :: p.1, p.2))
        else if e = 'r' then
          (parseJString rest2).map (fun p => ('\r' :: p.1, p.2))
        else if e = 't' then
          (parseJString rest2).map (fun p => ('\t' :: p.1, p.2))
        else if e = 'u' then
          match rest2 with
          | h1 :: h2 :: h3 :: h4 :: rest3 =>
            match hexVal h1, hexVal h2, hexVal h3, hexVal h4 with
            | some a, some b, some c2, some d =>
              (parseJString rest3).map
                (fun p => (Char.ofNat (((a * 16 + b) * 16 + c2) * 16 + d) :: p.1, p.2))
            | _, _, _, _ => none
          | _ => none
        else none
    else if c.toNat < 32 then none
    else (parseJString rest).map (fun p => (c :: p.1, p.2))

def digitsToNat (ds : List Char) : Nat :=
  ds.foldl (fun n c => n * 10 + (c.toNat - 48)) 0

/-- Parse the exponent part after `e`/`E`: optional sign and digits. -/
def parseExponent (cs : List Char) : Option (Int × List Char) :=
  let (negE, cs1) :=
    match cs with
    | '-' :: r => (true, r)
    | '+' :: r => (false, r)
    | _ => (false, cs)
  let es := cs1.takeWhile Char.isDigit
  if es.isEmpty then none
  else
    let e : Int := (digitsToNat es : Int)
    some (if negE then -e else e, cs1.drop es.length)

/-- Parse a JSON number starting at the current position. -/
def parseNumber (cs : List Char) : Option (ℚ × List Char) :=
  let (neg, cs1) := match cs with | '-' :: r => (true, r) | _ => (false, cs)
  let ds := cs1.takeWhile Char.isDigit
  if ds.isEmpty then none
  else if ds.length > 1 && ds.headD '0' = '0' then none  -- leading zeros rejected
  else
    let rest1 := cs1.drop ds.length
    let intPart : ℚ := (digitsToNat ds : ℚ)
    let (base, rest2) : ℚ × List Char :=
      match rest1 with
      | '.' :: r =>
        let fs := r.takeWhile Char.isDigit
        if fs.isEmpty then ((0 : ℚ), '.' :: r)  -- marker: invalid, detected below
        else (intPart + (digitsToNat fs : ℚ) / (10 : ℚ) ^ fs.length, r.drop fs.length)
      | _ => (intPart, rest1)
    -- a lone '.' with no digits is a decode error
    if rest1 ≠ rest2 ∨ rest1.headD ' ' ≠ '.' then
      let (scaled, rest3) : Option ℚ × List Char :=
        match rest2 with
        | 'e' :: r =>
          match parseExponent r with
          | some (e, r2) =>
            (some (if e ≥ 0 then base * (10 : ℚ) ^ e.toNat else base / (10 : ℚ) ^ e.natAbs), r2)
          | none => (none, rest2)
        | 'E' :: r =>
          match parseExponent r with
          | some (e, r2) =>
            (some (if e ≥ 0 then base * (10 : ℚ) ^ e.toNat else base / (10 : ℚ) ^ e.natAbs), r2)
          | none => (none, rest2)
        | _ => (some base, rest2)
      match scaled with
      | some q => some (if neg then -q else q, rest3)
      | none => none
    else none

mutual

/-- Parse one JSON value; the `Nat` argument is recursion fuel (always ample:
`jsonDecode` supplies more fuel than any input can consume). -/
def parseVal : Nat → List Char → Option (Json × List Char)
  | 0, _ => none
  | Nat.succ fuel, cs =>
    match skipJWs cs with
    | [] => none
    | c :: rest =>
      if c = lbraceChar then
        match skipJWs rest with
        | [] => none
        | d :: rest2 =>
          if d = rbraceChar then some (Json.obj [], rest2)
          else parseMembers fuel (d :: rest2) []
      else if c = '[' then
        match skipJWs rest with
        | [] => none
        | d :: rest2 =>
          if d = ']' then some (Json.arr [], rest2)
          else parseElems fuel (d :: rest2) []
      else if c = quoteChar then
        match parseJString rest with
        | some (chars, r) => some (Json.str (String.mk chars), r)
        | none => none
      else if c = 't' then
        match rest with
        | 'r' :: 'u' :: 'e' :: r => some (Json.bool true, r)
        | _ => none
      else if c = 'f' then
        match rest with
        | 'a' :: 'l' :: 's' :: 'e' :: r => some (Json.bool false, r)
        | _ => none
      else if c = 'n' then
        match rest with
        | 'u' :: 'l' :: 'l' :: r => some (Json.null, r)
        | _ => none
      else if c = '-' || c.isDigit then
        match parseNumber (c :: rest) with
        | some (q, r) => some (Json.num q, r)
        | none => none
      else none

/-- Parse the members of an object, from the first key onward. -/
def parseMembers : Nat → List Char → List (String × Json) →
    Option (Json × List Char)
  | 0, _, _ => none
  | Nat.succ fuel, cs, acc =>
    match skipJWs cs with
    | [] => none
    | q :: rest =>
      if q = quoteChar then
        match parseJString rest with
        | none => none
        | some (key, r1) =>
          match skipJWs r1 with
          | [] => none
          | colon :: r2 =>
            if colon = ':' then
              match parseVal fuel r2 with
              | none => none
              | some (v, r3) =>
                let acc2 := insertMember acc (String.mk key) v
                match skipJWs r3 with
                | [] => none
                | sep :: r4 =>
                  if sep = ',' then parseMembers fuel r4 acc2
                  else if sep = rbraceChar then some (Json.obj acc2, r4)
                  else none
            else none
      else none

/-- Parse the elements of an array, from the first element onward. -/
def parseElems : Nat → List Char → List Json → Option (Json × List Char)
  | 0, _, _ => none
  | Nat.succ fuel, cs, acc =>
    match parseVal fuel cs with
    | none => none
    | some (v, r1) =>
      match skipJWs r1 with
      | [] => none
      | sep :: r2 =>
        if sep = ',' then parseElems fuel r2 (acc ++ [v])
        else if sep = ']' then some (Json.arr (acc ++ [v]), r2)
        else none

end

/-- `json.loads`: decode a whole string, rejecting trailing garbage. -/
def jsonDecode (s : String) : Option Json :=
  match parseVal (4 * s.length + 16) s.data with
  | some (v, rest) => if skipJWs rest = [] then some v else none
  | none => none

/-! ### Python string helpers used by `parse_json_response` -/

/-- Index of the first occurrence of `pat` in a character list. -/
def findSubIdx (pat : List Char) : List Char → Option Nat
  | [] => if pat.isEmpty then some 0 else none
  | c :: rest =>
    if pat.isPrefixOf (c :: rest) then some 0
    else (findSubIdx pat rest).map (· + 1)

/-- Python's `pat in s`. -/
def containsSub (s pat : String) : Bool := (findSubIdx pat.data s.data).isSome

/-- Split at the first occurrence of `pat`: `(before, after)`, the pattern
itself consumed. -/
def splitFirstSub (s pat : String) : Option (String × String) :=
  (findSubIdx pat.data s.data).map fun i =>
    (String.mk (s.data.take i), String.mk (s.data.drop (i + pat.length)))

/-- Python `str.strip()` whitespace set (ASCII part). -/
def isPyWs (c : Char) : Bool :=
  c = ' ' || c = '\t' || c = '\n' || c = '\r' || c = Char.ofNat 11 || c = Char.ofNat 12

/-- Python `str.strip()`. -/
def pyStrip (s : String) : String :=
  String.mk (((s.data.dropWhile isPyWs).reverse.dropWhile isPyWs).reverse)

/-- The single candidate produced by the greedy regex `({[\s\S]*})`
(openai_client.py line 92), which is also the substring taken by the
last-resort strategy (lines 129-133): from the first `{` to the last `}`,
provided the `}` comes after the `{`.  The greedy `[\s\S]*` makes
`re.findall` return exactly this one match (a second match would need a
further `}` after the last one). -/
def braceSpan (c : String) : Option String :=
  let cs := c.data
  match cs.findIdx? (fun ch => ch = lbraceChar),
        (cs.reverse.findIdx? (fun ch => ch = rbraceChar)).map
          (fun k => cs.length - 1 - k) with
  | some i, some j =>
    if i < j then some (String.mk ((cs.drop i).take (j - i + 1))) else none
  | _, _ => none

/-- `content.split("```json")[1].split("```")[0]`
(openai_client.py line 108): the text after the first ` ```json ` up to the
next ` ``` ` (or to the end when there is none).  Only called when
`"```json"` occurs in the content; returns `""` otherwise. -/
def labeledBlock (c : String) : String :=
  match splitFirstSub c "```json" with
  | none => ""
  | some (_, after) =>
    match splitFirstSub after "```" with
    | none => after
    | some (before, _) => before

/-- Is this an ASCII `\w` character?  (Python's `\w` additionally matches
non-ASCII word characters; no claim input uses any.) -/
def isWordChar (c : Char) : Bool := c.isAlphanum || c = '_'

/-- All blocks captured by `re.findall(r'```(?:\w*\n)?([\s\S]*?)```', content)`
(openai_client.py line 113): scan left to right, pair each ` ``` ` opener with
the nearest closer, optionally dropping a label (word characters immediately
followed by a newline) after the opener.  The `Nat` argument is fuel
(initially the content length, ample since every match consumes characters). -/
def codeBlocksAux (tbt : List Char) : Nat → List Char → List String
  | 0, _ => []
  | Nat.succ fuel, cs =>
    match findSubIdx tbt cs with
    | none => []
    | some p =>
      let afterOpen := cs.drop (p + 3)
      let wordRun := afterOpen.takeWhile isWordChar
      let afterLabel :=
        if (afterOpen.drop wordRun.length).headD ' ' = '\n' then
          afterOpen.drop (wordRun.length + 1)
        else afterOpen
      match findSubIdx tbt afterLabel with
      | none => []
      | some q =>
        String.mk (afterLabel.take q) :: codeBlocksAux tbt fuel (afterLabel.drop (q + 3))

def codeBlocks (c : String) : List String :=
  codeBlocksAux "```".data c.length c.data

/-! ### `parse_json_response` (openai_client.py lines 75-160)

The five recovery strategies, in source order.  Decoding failures inside
strategies 1, 3, 4 and 5 are caught by inner `try`/`except` blocks and modelled
by `Option`; the labeled-block decode at line 109 is *not* inside an inner
`try`, so its failure reaches the outer `except` (lines 148-160). -/

/-- The check at line 101, which the spec calls structural validity: all
three required category keys present. -/
def structurallyValid (j : Json) : Bool :=
  hasKey j "skills" && hasKey j "experience" && hasKey j "education"

/-- Strategy 1 (lines 91-104): decode the greedy brace span and keep it only
when all three category keys are present.  The decoded value always is an
object because the span starts with `{` . -/
def step1 (c : String) : Option Json :=
  match braceSpan c with
  | none => none
  | some s =>
    match jsonDecode s with
    | none => none
    | some r => if structurallyValid r then some r else none

/-- Strategy 3 (lines 111-120): first unlabeled fenced block that decodes,
no key check. -/
def step3blocks (c : String) : Option Json :=
  (codeBlocks c).findSome? (fun b => jsonDecode (pyStrip b))

/-- Strategy 5 (lines 126-136): decode the first-`{`-to-last-`}` substring,
no key check. -/
def step5 (c : String) : Option Json := (braceSpan c).bind jsonDecode

/-- One zero-score category of the all-strategies-failed fallback
(lines 142-144). -/
def zeroCat : Json :=
  Json.obj [("score", Json.num 0), ("reasoning", Json.str "Error parsing response"),
            ("strengths", Json.arr []), ("gaps", Json.arr [])]

/-- The fields of the fallback record returned when every strategy failed
without an exception (lines 140-146). -/
def allFailFields (c : String) : List (String × Json) :=
  [("error", Json.str ("Could not parse JSON from response. Raw response: "
      ++ c.take 500 ++ "...")),
   ("skills", zeroCat), ("experience", zeroCat), ("education", zeroCat),
   ("overall", Json.obj [("score", Json.num 0),
                         ("reasoning", Json.str "Error parsing response")])]

def allFailFallback (c : String) : Json := Json.obj (allFailFields c)

/-- Placeholder for `str(e)` of the `json.JSONDecodeError` raised at line 109;
Python interpolates the exception's own message (e.g. "Expecting value ..."),
whose exact text the claims never depend on. -/
def decodeErrText : String := "Expecting value"

def exnCat : Json :=
  Json.obj [("score", Json.num 0),
            ("reasoning", Json.str ("Error: " ++ decodeErrText)),
            ("strengths", Json.arr []), ("gaps", Json.arr [])]

/-- The fields of the fallback record built by the outer `except`
(lines 154-160); note it carries no 500-character prefix of the reply. -/
def exnFields : List (String × Json) :=
  [("error", Json.str ("JSON parsing error: " ++ decodeErrText)),
   ("skills", exnCat), ("experience", exnCat), ("education", exnCat),
   ("overall", Json.obj [("score", Json.num 0),
                         ("reasoning", Json.str ("Error: " ++ decodeErrText))])]

def exnFallback : Json := Json.obj exnFields

/-- Strategies 4 then 5 then the no-exception fallback (lines 122-146). -/
def step45 (c : String) : Json :=
  match jsonDecode c with
  | some r => r
  | none =>
    match step5 c with
    | some r => r
    | none => allFailFallback c

/-- The strategy chain applied to non-empty content (lines 87-160). -/
def parseContent (c : String) : Json :=
  match step1 c with
  | some r => r
  | none =>
    if containsSub c "```json" then
      -- line 107-110: no inner try; a decode failure raises to the outer
      -- except (lines 148-160), skipping strategies 3, 4 and 5
      match jsonDecode (pyStrip (labeledBlock c)) with
      | some r => r
      | none => exnFallback
    else if containsSub c "```" then
      match step3blocks c with
      | some r => r
      | none => step45 c
    else step45 c

/-- The dict returned by `generate_evaluation`: either `{"content": ..,
"usage": ..}` (usage metadata not modelled: nothing reads it) or
`{"error": str(e)}`. -/
inductive GenResult where
  | success (content : String) : GenResult
  | failure (msg : String) : GenResult

/-- `parse_json_response` (lines 75-160). -/
def parse_json_response (response : GenResult) : Json :=
  match response with
  | GenResult.failure e => Json.obj [("error", Json.str e)]
  | GenResult.success content =>
    if content = "" then Json.obj [("error", Json.str "Empty response from model")]
    else parseContent content

/-! ### `generate_evaluation` and `process_with_retry`
(openai_client.py lines 22-73)

The network call is abstracted as an oracle `api : Nat → Except String String`
giving, for each attempt index, either the model's reply text or the message
of the exception the attempt raises.  `generate_evaluation` wraps its whole
body in `try`/`except Exception` and returns `{"error": str(e)}` on failure
(lines 50-53), so it never raises: its codomain is `Except Empty GenResult`,
with the impossibility of the exceptional outcome carried by `Empty`. -/

def generate_evaluation (api_call : Except String String) : Except Empty GenResult :=
  Except.ok
    (match api_call with
     | Except.ok content => GenResult.success content
     | Except.error e => GenResult.failure e)

/-- `process_with_retry` (lines 55-73).  `retry` starts at 0; the loop guard
is `retry < max_retries`, so with `max_retries ≤ 0` the body never runs and
Python falls off the function, returning `None` (modelled as `none`).
Otherwise the first iteration executes
`return self.generate_evaluation(system_prompt, user_prompt)`; since
`generate_evaluation` cannot raise, that `return` always fires, and the
`except` branch of the loop (lines 64-73: retry counter, error dict after
exhaustion, `time.sleep(backoff_factor ** retry)`) is unreachable — the
`Empty.elim` below is that dead branch. -/
def process_with_retry (api : Nat → Except String String) (max_retries : Int)
    (_backoff_factor : ℚ) : Option GenResult :=
  if (0 : Int) < max_retries then
    match generate_evaluation (api 0) with
    | Except.ok result => some result
    | Except.error e => (e.elim : Option GenResult)
  else none

/-! ### Weights and `calculate_weighted_score`
(config.py lines 19-23, ranking_engine.py lines 23-33) -/

structure Weights where
  skills : ℚ
  experience : ℚ
  education : ℚ

/-- `WEIGHTS` (config.py): Python's literals 0.4/0.4/0.2 read as exact
rationals. -/
def WEIGHTS : Weights := ⟨2/5, 2/5, 1/5⟩

/-- `value * weight` in Python: numbers and booleans multiply with a float;
strings, lists, dicts and `None` raise `TypeError` (→ `none`). -/
def toPyNumber (j : Json) : Option ℚ :=
  match j with
  | Json.num q => some q
  | Json.bool b => some (if b then 1 else 0)
  | _ => none

/-- `evaluation.get(k, {}).get("score", 0)` coerced to a number:
`.get` on a non-dict raises `AttributeError` (→ `none`). -/
def categoryScore (evaluation : Json) (k : String) : Option ℚ :=
  match evaluation with
  | Json.obj fields =>
    match (lookupField fields k).getD (Json.obj []) with
    | Json.obj inner => toPyNumber ((lookupField inner "score").getD (Json.num 0))
    | _ => none
  | _ => none

/-- `calculate_weighted_score` (lines 23-33): the weighted sum, with the
surrounding `try`/`except` returning `0.0` on any raised exception. -/
def calculate_weighted_score (w : Weights) (evaluation : Json) : ℚ :=
  match categoryScore evaluation "skills", categoryScore evaluation "experience",
        categoryScore evaluation "education" with
  | some s, some e, some d => s * w.skills + e * w.experience + d * w.education
  | _, _, _ => 0

/-! ### `evaluate_cv` (ranking_engine.py lines 38-149) -/

/-- The relevant parts of a processed CV dict: `cv_data.get("filename",
"Unknown")`, the optional `"error"` entry set by the extraction layer, and
the optional `"full_text"` entry. -/
structure CvData where
  filename : Option String
  error : Option String
  full_text : Option String

/-- A result dict built by `evaluate_cv` / `rank_cvs`: the keys the various
return statements populate (`none` = key absent). -/
structure CvResult where
  filename : String
  score : ℚ
  evaluation : Option Json
  error : Option String
  warning : Option String
  raw_response : Option String
  rank : Option Nat

/-- Python's `k in x` for the parsed evaluation: membership for dicts and
lists, substring test for strings, `TypeError` (→ `none`) otherwise. -/
def pyInStr (k : String) (j : Json) : Option Bool :=
  match j with
  | Json.obj fields => some ((fields.find? (fun p => p.1 == k)).isSome)
  | Json.arr xs =>
    some (xs.any (fun e => match e with | Json.str s => s == k | _ => false))
  | Json.str s => some (containsSub s k)
  | _ => none

/-- `del copy["error"]` after `evaluation.copy()`. -/
def eraseField (fields : List (String × Json)) (k : String) :
    List (String × Json) :=
  fields.filter (fun p => !(p.1 == k))

/-- How a `Json` value appears inside an f-string diagnostic.  Python prints
the full `repr` of containers; the claims never inspect those, so they are
abbreviated. -/
def jsonShow (j : Json) : String :=
  match j with
  | Json.str s => s
  | Json.num q => toString q
  | Json.bool b => if b then "True" else "False"
  | Json.null => "None"
  | Json.arr _ => "[...]"
  | Json.obj _ => "\x7b...\x7d"

/-- The result built when the outer `except` of `evaluate_cv`
(lines 140-149) catches an exception; the interpolated `str(e)` text is
elided. -/
def outerExceptResult (filename : String) : CvResult :=
  ⟨filename, 0, none, some ("Error evaluating CV " ++ filename), none, none, none⟩

/-- `evaluate_cv` (lines 38-149).  The LLM call is the oracle outcome `api`
(the same outcome on every retry attempt; only attempt 0 is ever made). -/
def evaluate_cv (w : Weights) (api : Except String String)
    (_job_description : String) (cv : CvData) : CvResult :=
  let filename := cv.filename.getD "Unknown"
  match cv.error with
  | some e =>
    -- lines 45-53: extraction error recorded on the CV dict
    ⟨filename, 0, none, some e, none, none, none⟩
  | none =>
    match cv.full_text with
    | none => ⟨filename, 0, none, some "No CV text available for evaluation", none, none, none⟩
    | some t =>
      if t = "" then
        ⟨filename, 0, none, some "No CV text available for evaluation", none, none, none⟩
      else
        -- line 77: response = process_with_retry(SYSTEM_PROMPT, user_prompt)
        match process_with_retry (fun _ => api) 3 2 with
        | none =>
          -- dead for max_retries = 3: `"error" in None` would raise TypeError,
          -- caught by the outer except (lines 140-149)
          outerExceptResult filename
        | some response =>
          match response with
          | GenResult.failure e =>
            -- lines 80-89; raw_response := response.get("content", "") = ""
            ⟨filename, 0, none, some ("API error: " ++ e), none, some "", none⟩
          | GenResult.success raw =>
            let evaluation := parse_json_response response
            match pyInStr "error" evaluation with
            | none => outerExceptResult filename  -- `in` on a non-container raises
            | some hasErr =>
              if hasErr then
                match pyInStr "skills" evaluation with
                | none => outerExceptResult filename
                | some hasSkills =>
                  if hasSkills then
                    -- lines 100-112: fallback structure, continue with scoring
                    match evaluation with
                    | Json.obj fields =>
                      let copy := Json.obj (eraseField fields "error")
                      ⟨filename, calculate_weighted_score w copy, some copy, none,
                       some (jsonShow ((lookupField fields "error").getD Json.null)),
                       some raw, none⟩
                    | _ =>
                      -- `.copy()` / `del` on a non-dict raises, outer except
                      outerExceptResult filename
                  else
                    -- lines 115-124
                    match evaluation with
                    | Json.obj fields =>
                      ⟨filename, 0, none,
                       some ("Error parsing API response: "
                          ++ jsonShow ((lookupField fields "error").getD Json.null)),
                       none, some raw, none⟩
                    | _ => outerExceptResult filename
              else
                -- lines 126-138
                ⟨filename, calculate_weighted_score w evaluation, some evaluation,
                 none, none, some raw, none⟩

/-! ### Statuses (spec §3/§4.3)

The source keeps the outcome implicit in which keys a result dict carries;
the spec's three-way `status` is the classification below: an `error` key
means `Failed`, a `warning` key (without `error`) means `Warning`, otherwise
`Success`. -/

inductive Status where
  | Success : Status
  | Warning : Status
  | Failed : Status
deriving DecidableEq

def statusOf (r : CvResult) : Status :=
  if r.error.isSome then Status.Failed
  else if r.warning.isSome then Status.Warning
  else Status.Success

/-! ### `batch_process`, `rank_cvs`, `generate_ranking_report`
(ranking_engine.py lines 151-190) -/

def BATCH_SIZE : Nat := 5

/-- `cv_list[i:i+BATCH_SIZE]` chunks, in order; fuel is the list length. -/
def chunksOfAux (n : Nat) : Nat → List CvData → List (List CvData)
  | _, [] => []
  | 0, l => [l]
  | Nat.succ fuel, l => l.take n :: chunksOfAux n fuel (l.drop n)

def chunksOf (n : Nat) (l : List CvData) : List (List CvData) :=
  chunksOfAux n l.length l

/-- `batch_process` (lines 151-157): evaluate each CV of a batch in order.
The oracle gives each document its API outcome. -/
def batch_process (w : Weights) (oracle : CvData → Except String String)
    (jd : String) (batch : List CvData) : List CvResult :=
  batch.map (fun cv => evaluate_cv w (oracle cv) jd cv)

/-- The comparator realised by `sorted(all_results, key=lambda x: x["score"],
reverse=True)`: `a` may precede `b` exactly when `b`'s score is not larger. -/
def scoreGE (a b : CvResult) : Prop := b.score ≤ a.score

instance : DecidableRel scoreGE :=
  fun a b => inferInstanceAs (Decidable (b.score ≤ a.score))

instance : IsTotal CvResult scoreGE := ⟨fun a b => le_total b.score a.score⟩

instance : IsTrans CvResult scoreGE := ⟨fun _ _ _ h1 h2 => le_trans h2 h1⟩

/-- `result["rank"] = i + 1` over the sorted list (lines 175-176). -/
def addRanks (l : List CvResult) : List CvResult :=
  l.enum.map (fun p => { p.2 with rank := some (p.1 + 1) })

/-- `rank_cvs` (lines 159-178).  Python's `sorted` is a stable sort; a stable
sort's output is uniquely determined by the key order and the input order, so
it is embedded as the stable `List.insertionSort` (with `scoreGE`, an element
is inserted behind every earlier element whose score is not smaller — exactly
the stable descending order `sorted(..., reverse=True)` produces). -/
def rank_cvs (w : Weights) (oracle : CvData → Except String String)
    (jd : String) (cv_list : List CvData) : List CvResult :=
  addRanks (List.insertionSort scoreGE
    (((chunksOf BATCH_SIZE cv_list).map (batch_process w oracle jd)).flatten))

structure RankReport where
  total_cvs : Nat
  successful_evaluations : Nat
  failed_evaluations : Nat
  average_score : ℚ
  top_candidates : List CvResult
  all_rankings : List CvResult

/-- `generate_ranking_report` (lines 180-190). -/
def generate_ranking_report (results : List CvResult) : RankReport :=
  { total_cvs := results.length
    successful_evaluations := (results.filter (fun r => r.error.isNone)).length
    failed_evaluations := (results.filter (fun r => r.error.isSome)).length
    average_score := (results.map (fun r => r.score)).sum
      / ((max results.length 1 : Nat) : ℚ)
    top_candidates := (results.take 5).filter (fun r => r.error.isNone)
    all_rankings := results }

/-! ### Record-shape predicates (spec §3, §4.2)

Observers used to state the claims: field access on a decoded record, the
"structurally valid" check, and the documented zero-filled fallback shape. -/

/-- Top-level field of a record, `none` on a non-dict. -/
def recordField (j : Json) (k : String) : Option Json :=
  match j with
  | Json.obj fs => lookupField fs k
  | _ => none

/-- The `score` entry of category `k` of a record. -/
def fieldScore (j : Json) (k : String) : Option Json :=
  match recordField j k with
  | some (Json.obj g) => lookupField g "score"
  | _ => none

/-- The `reasoning` entry of category `k` of a record. -/
def fieldReasoning (j : Json) (k : String) : Option Json :=
  match recordField j k with
  | some (Json.obj g) => lookupField g "reasoning"
  | _ => none

def isZeroScore (o : Option Json) : Bool :=
  match o with
  | some (Json.num q) => q == 0
  | _ => false

/-- Every category score and the overall score are 0. -/
def zeroFilledRecord (j : Json) : Bool :=
  isZeroScore (fieldScore j "skills") && isZeroScore (fieldScore j "experience")
    && isZeroScore (fieldScore j "education") && isZeroScore (fieldScore j "overall")

/-- `del copy["error"]` at the `Json` level. -/
def eraseKeyJ (j : Json) (k : String) : Json :=
  match j with
  | Json.obj fs => Json.obj (eraseField fs k)
  | _ => j

/-- All five strategies fail for this content (so `parse_json_response`
reaches one of the two fallback objects): the brace scan yields nothing
valid, and then either the labeled-block decode raises (when `"```json"`
occurs) or the remaining three strategies all fail. -/
def strategiesFail (c : String) : Bool :=
  (step1 c).isNone &&
    (if containsSub c "```json" then (jsonDecode (pyStrip (labeledBlock c))).isNone
     else (step3blocks c).isNone && (jsonDecode c).isNone && (step5 c).isNone)

/-- `strategiesFail` restricted to the exception-free path (no labeled
fence), where the documented 500-character fallback is produced. -/
def pureStrategiesFail (c : String) : Bool :=
  (step1 c).isNone && !(containsSub c "```json") && (step3blocks c).isNone
    && (jsonDecode c).isNone && (step5 c).isNone

/-! ### The spec's tie-broken sort (spec §4.3) -/

/-- The spec's tie-breaking order on position-tagged results: strictly larger
weighted score first, equal scores ordered by original input position. -/
def specTieRel (p q : Nat × CvResult) : Prop :=
  q.2.score < p.2.score ∨ (p.2.score = q.2.score ∧ p.1 ≤ q.1)

instance : DecidableRel specTieRel :=
  fun p q => inferInstanceAs
    (Decidable (q.2.score < p.2.score ∨ (p.2.score = q.2.score ∧ p.1 ≤ q.1)))

/-- Modelled from the spec: "sorts the complete result set by `weightedScore`
descending; ties are broken by preserving the original input order" — tag
each result with its input position, sort by (score descending, position
ascending), untag. -/
def specStableDescSort (l : List CvResult) : List CvResult :=
  (List.insertionSort specTieRel l.enum).map Prod.snd

/-! ### Concrete data used by witnesses and counterexamples -/

/-- The record of the spec's worked example: category scores 8, 6, 10. -/
def exampleRecord : Json :=
  Json.obj [("skills", Json.obj [("score", Json.num 8)]),
            ("experience", Json.obj [("score", Json.num 6)]),
            ("education", Json.obj [("score", Json.num 10)])]

/-- A reply holding a loose brace-delimited object with all three required
keys *and* a labeled fenced block: the greedy brace span stretches across
both, so it fails to decode and the fenced block wins. -/
def bothShapesReply : String :=
  "\x7b\"skills\": 1, \"experience\": 2, \"education\": 3\x7d ```json \x7b\"a\": 1\x7d ```"

def looseRecordText : String :=
  "\x7b\"skills\": 1, \"experience\": 2, \"education\": 3\x7d"

/-- A reply whose labeled fenced block fails to decode while the last-resort
brace substring would decode: `parse` returns the exception fallback instead
of trying strategies 3-5. -/
def labeledExnReply : String := "```json oops ``` \x7b\"a\": 1\x7d"

/-- Two ranked results: one success, one failed (score 0). -/
def reportDemoResults : List CvResult :=
  [⟨"a.pdf", 3, none, none, none, none, some 1⟩,
   ⟨"b.pdf", 0, none, some "API error: x", none, none, some 2⟩]

/-- A `Failed` ranked entry as `evaluate_cv` builds it for an extraction
failure (score forced to 0) at the given rank. -/
def failedEntry (nm : String) (rk : Nat) : CvResult :=
  ⟨nm, 0, none, some "File processing failed", none, none, some rk⟩

/-- The ranked list `rank_cvs` produces for five extraction failures followed
by one CV whose model reply is unparseable: every weighted score is 0, the
stable sort keeps the input order, so the five `Failed` entries occupy ranks
1-5 and the `Warning` entry (zero-filled fallback evaluation) rank 6. -/
def rankedDemo : List CvResult :=
  [failedEntry "f1.pdf" 1, failedEntry "f2.pdf" 2, failedEntry "f3.pdf" 3,
   failedEntry "f4.pdf" 4, failedEntry "f5.pdf" 5,
   ⟨"f6.pdf", 0, some (eraseKeyJ (allFailFallback "gibberish") "error"), none,
    some ("Could not parse JSON from response. Raw response: gibberish..."),
    some "gibberish", some 6⟩]

/-! ## Theorems -/

/-! ### C10: `process_with_retry` with non-positive `max_retries` -/

/-- C10: for every API oracle and backoff factor, calling the retry wrapper
with `max_retries ≤ 0` never enters the loop body and returns `None` — the
caller receives neither a response dict nor an error dict. -/
theorem process_with_retry_nonpositive (api : Nat → Except String String)
    (b : ℚ) (mr : Int) (h : mr ≤ 0) :
    process_with_retry api mr b = none := by
  unfold process_with_retry
  exact if_neg (by omega)

/-- Witness for C10 at `max_retries = 0` with a failing API. -/
theorem process_with_retry_nonpositive_witness :
    process_with_retry (fun _ => Except.error "connection reset") 0 2 = none :=
  process_with_retry_nonpositive (fun _ => Except.error "connection reset") 2 0
    (by omega)

/-! ### C2: retry-with-backoff on API failure -/

/-- C2 (code evaluated at the failing scenario): whenever `max_retries` is
positive, `process_with_retry` returns after the very first call to
`generate_evaluation`, whatever the outcomes of later attempts would be; in
particular an API failure is returned immediately as the error dict of
attempt 0 — no retry is made and no backoff sleep happens, because
`generate_evaluation` catches the exception itself and returns normally
(the loop's `except` branch is dead code). -/
theorem process_with_retry_single_attempt (api : Nat → Except String String)
    (b : ℚ) (mr : Int) (m : String) (hmr : 0 < mr)
    (hfail : api 0 = Except.error m) :
    process_with_retry api mr b = some (GenResult.failure m) := by
  unfold process_with_retry generate_evaluation
  rw [if_pos hmr, hfail]

/-- Witness for C2: a transport failure on every attempt with
`max_retries = 3`, `backoff_factor = 2` yields the attempt-0 error dict. -/
theorem process_with_retry_single_attempt_witness :
    process_with_retry (fun _ => Except.error "network down") 3 2 =
      some (GenResult.failure "network down") :=
  process_with_retry_single_attempt (fun _ => Except.error "network down") 2 3
    "network down" (by omega) rfl

/-! ### C7: the weighted-score formula -/

/-- C7: for every weights and every evaluation whose three categories carry a
numeric score, `calculate_weighted_score` is exactly the linear combination —
no clamping or normalisation of inputs or output. -/
theorem calculate_weighted_score_formula (w : Weights) (j : Json) (s e d : ℚ)
    (hs : categoryScore j "skills" = some s)
    (he : categoryScore j "experience" = some e)
    (hd : categoryScore j "education" = some d) :
    calculate_weighted_score w j =
      s * w.skills + e * w.experience + d * w.education := by
  unfold calculate_weighted_score
  rw [hs, he, hd]

/-- Witness for C7: with the configured weights 0.4/0.4/0.2 the example
scores 8/6/10 give exactly 7.6. -/
theorem calculate_weighted_score_formula_witness :
    calculate_weighted_score WEIGHTS exampleRecord = (7.6 : ℚ) := by
  rw [calculate_weighted_score_formula WEIGHTS exampleRecord 8 6 10 rfl rfl rfl]
  norm_num [WEIGHTS]

/-! ### C1: strategy order and the brace scan -/

/-- Counterexample to C1 as stated: `bothShapesReply` contains a loose
brace-delimited JSON object with all required keys, yet `parse` returns the
labeled fenced block's object `{"a": 1}` — the brace scan does not win, and
the returned non-failure record lacks all three category keys. -/
theorem parse_both_shapes_counterexample :
    parse_json_response (GenResult.success bothShapesReply) =
        Json.obj [("a", Json.num 1)]
      ∧ structurallyValid (Json.obj [("a", Json.num 1)]) = false
      ∧ jsonDecode looseRecordText =
          some (Json.obj [("skills", Json.num 1), ("experience", Json.num 2),
                          ("education", Json.num 3)])
      ∧ structurallyValid
          (Json.obj [("skills", Json.num 1), ("experience", Json.num 2),
                     ("education", Json.num 3)]) = true
      ∧ containsSub bothShapesReply looseRecordText = true
      ∧ containsSub bothShapesReply "```json" = true :=
  ⟨rfl, rfl, rfl, rfl, rfl, rfl⟩

/-- C1 (amended): the five strategies run in the fixed order, but the brace
scan examines the single greedy first-`{`-to-last-`}` span and is the only
strategy that checks the three category keys; whenever that span decodes to
a structurally valid record, the brace scan wins and `parse` returns it
(in particular ahead of any fenced block). -/
theorem parse_brace_scan_wins (c s : String) (r : Json)
    (h1 : braceSpan c = some s) (h2 : jsonDecode s = some r)
    (h3 : structurallyValid r = true) :
    parse_json_response (GenResult.success c) = r := by
  have hc : c ≠ "" := by
    intro h
    subst h
    exact Option.noConfusion ((rfl : braceSpan "" = none) ▸ h1)
  have hstep : step1 c = some r := by
    unfold step1
    rw [h1]
    simp only [h2, h3, if_true]
  have hunf : parse_json_response (GenResult.success c)
      = if c = "" then Json.obj [("error", Json.str "Empty response from model")]
        else parseContent c := rfl
  rw [hunf, if_neg hc]
  unfold parseContent
  rw [hstep]

/-- Witness for C1 (amended): a reply whose greedy brace span is a valid
record with all three keys is returned by the brace scan. -/
theorem parse_brace_scan_wins_witness :
    parse_json_response
        (GenResult.success
          "reply: \x7b\"skills\": 1, \"experience\": 2, \"education\": 3\x7d end") =
      Json.obj [("skills", Json.num 1), ("experience", Json.num 2),
                ("education", Json.num 3)] :=
  parse_brace_scan_wins
    "reply: \x7b\"skills\": 1, \"experience\": 2, \"education\": 3\x7d end"
    "\x7b\"skills\": 1, \"experience\": 2, \"education\": 3\x7d"
    (Json.obj [("skills", Json.num 1), ("experience", Json.num 2),
               ("education", Json.num 3)])
    rfl rfl rfl

/-! ### C6: exceptions inside a strategy -/

/-- Counterexample to C6 as stated: on `labeledExnReply` the decode failure
inside the labeled fenced-block strategy is *not* treated as just that
strategy's failure — `parse` answers with the outer-except fallback object
even though the first-`{`/last-`}` strategy would have decoded `{"a": 1}`. -/
theorem parse_labeled_exn_counterexample :
    parse_json_response (GenResult.success labeledExnReply) = exnFallback
      ∧ step5 labeledExnReply = some (Json.obj [("a", Json.num 1)])
      ∧ exnFallback ≠ Json.obj [("a", Json.num 1)] := by
  refine ⟨rfl, rfl, ?_⟩
  simp [exnFallback, exnFields]

/-- C6 (amended): no exception escapes `parse` (it is a total function into
result objects), and a decode failure in any of the brace-scan, unlabeled
block, whole-reply or first-`{`/last-`}` strategies moves on to the next
strategy; but a decode failure in the *labeled* fenced-block strategy is
caught only by the outer handler, which returns the exception fallback
object, skipping the remaining strategies. -/
theorem parse_labeled_exn_skips_rest (c : String)
    (h1 : step1 c = none) (h2 : containsSub c "```json" = true)
    (h3 : jsonDecode (pyStrip (labeledBlock c)) = none) :
    parse_json_response (GenResult.success c) = exnFallback := by
  have hc : c ≠ "" := by
    intro h
    subst h
    exact absurd h2 (by decide)
  have hunf : parse_json_response (GenResult.success c)
      = if c = "" then Json.obj [("error", Json.str "Empty response from model")]
        else parseContent c := rfl
  rw [hunf, if_neg hc]
  unfold parseContent
  rw [h1, h2]
  simp only [h3, if_true]

/-- Witness for C6 (amended) at `labeledExnReply`. -/
theorem parse_labeled_exn_skips_rest_witness :
    parse_json_response (GenResult.success labeledExnReply) = exnFallback :=
  parse_labeled_exn_skips_rest labeledExnReply rfl rfl rfl

/-! ### C5: parse totality and the fallback shape -/

/-- Counterexample to C5 as stated: on the empty reply (one of the claim's
own adversarial inputs) `parse` returns a bare error object that is neither
a structurally valid record nor a `ParseFailure` carrying the documented
zero-filled fallback — it has no `skills` key at all. -/
theorem parse_empty_reply_counterexample :
    parse_json_response (GenResult.success "") =
        Json.obj [("error", Json.str "Empty response from model")]
      ∧ structurallyValid
          (Json.obj [("error", Json.str "Empty response from model")]) = false
      ∧ hasKey (Json.obj [("error", Json.str "Empty response from model")])
          "skills" = false :=
  ⟨rfl, rfl, rfl⟩

/-- C5 (amended): `parse` never raises (it is total); an empty reply yields a
bare error object with no fallback record; and a non-empty reply on which
every strategy fails without the labeled-block exception yields the
documented `ParseFailure`: the error message holds the first 500 characters
of the raw reply, every category score and the overall score are 0 with
reasoning "Error parsing response", and strengths/gaps are empty.  (When the
labeled-block decode raises, the fallback instead carries the exception
text — see the C6 theorems.) -/
theorem parse_shapes (c : String) :
    (c = "" → parse_json_response (GenResult.success c) =
        Json.obj [("error", Json.str "Empty response from model")])
    ∧ (c ≠ "" → pureStrategiesFail c = true →
        parse_json_response (GenResult.success c) = allFailFallback c
        ∧ recordField (allFailFallback c) "error" =
            some (Json.str ("Could not parse JSON from response. Raw response: "
              ++ c.take 500 ++ "..."))
        ∧ zeroFilledRecord (allFailFallback c) = true
        ∧ fieldReasoning (allFailFallback c) "skills" =
            some (Json.str "Error parsing response")
        ∧ fieldReasoning (allFailFallback c) "experience" =
            some (Json.str "Error parsing response")
        ∧ fieldReasoning (allFailFallback c) "education" =
            some (Json.str "Error parsing response")) := by
  constructor
  · intro h
    subst h
    rfl
  · intro hne hf
    simp only [pureStrategiesFail, Bool.and_eq_true, Bool.not_eq_true',
      Option.isNone_iff_eq_none] at hf
    obtain ⟨⟨⟨⟨hs1, hjs⟩, hs3⟩, hs4⟩, hs5⟩ := hf
    refine ⟨?_, rfl, rfl, rfl, rfl, rfl⟩
    have hunf : parse_json_response (GenResult.success c)
        = if c = "" then Json.obj [("error", Json.str "Empty response from model")]
          else parseContent c := rfl
    rw [hunf, if_neg hne]
    unfold parseContent
    rw [hs1, hjs]
    simp only [Bool.false_eq_true, if_false, hs3, ite_self]
    unfold step45
    rw [hs4, hs5]

/-- Witness for C5 (amended): a reply with no JSON anywhere produces the
documented fallback. -/
theorem parse_shapes_witness :
    parse_json_response (GenResult.success "no structured data here") =
      allFailFallback "no structured data here" :=
  ((parse_shapes "no structured data here").2 (by decide) (by decide)).1

/-! ### C3: Warning vs Failed in `evaluate_cv` -/

/-- With the default `max_retries = 3`, a successful call returns the reply. -/
theorem process_with_retry_default_ok (reply : String) :
    process_with_retry (fun _ => Except.ok reply) 3 2 =
      some (GenResult.success reply) := rfl

/-- With the default `max_retries = 3`, a failing call returns the error
dict. -/
theorem process_with_retry_default_err (msg : String) :
    process_with_retry (fun _ => Except.error msg) 3 2 =
      some (GenResult.failure msg) := rfl

/-- When every strategy fails, `parse` lands on one of the two fallback
objects. -/
theorem parseContent_fallback (c : String) (hne : c ≠ "")
    (hf : strategiesFail c = true) :
    parse_json_response (GenResult.success c) = Json.obj exnFields
      ∨ parse_json_response (GenResult.success c) = Json.obj (allFailFields c) := by
  simp only [strategiesFail, Bool.and_eq_true, Option.isNone_iff_eq_none] at hf
  obtain ⟨hs1, hrest⟩ := hf
  have hunf : parse_json_response (GenResult.success c)
      = if c = "" then Json.obj [("error", Json.str "Empty response from model")]
        else parseContent c := rfl
  by_cases hjs : containsSub c "```json" = true
  · left
    rw [hjs, if_pos rfl] at hrest
    rw [Option.isNone_iff_eq_none] at hrest
    rw [hunf, if_neg hne]
    unfold parseContent
    rw [hs1, hjs]
    simp only [hrest, if_true]
    rfl
  · right
    have hjs' : containsSub c "```json" = false := by
      revert hjs
      cases containsSub c "```json" <;> simp
    rw [hjs', if_neg (by simp)] at hrest
    simp only [Bool.and_eq_true, Option.isNone_iff_eq_none] at hrest
    obtain ⟨⟨hs3, hs4⟩, hs5⟩ := hrest
    rw [hunf, if_neg hne]
    unfold parseContent
    rw [hs1, hjs']
    simp only [Bool.false_eq_true, if_false, hs3, ite_self]
    unfold step45
    rw [hs4, hs5]
    rfl

/-- Unfolding of `evaluate_cv` when the API call fails (lines 80-89). -/
theorem evaluate_cv_api_error (w : Weights) (jd msg t : String) (cv : CvData)
    (hcv : cv.error = none) (ht : cv.full_text = some t) (htne : t ≠ "") :
    evaluate_cv w (Except.error msg) jd cv =
      ⟨cv.filename.getD "Unknown", 0, none, some ("API error: " ++ msg),
       none, some "", none⟩ := by
  simp only [evaluate_cv, hcv, ht]
  rw [if_neg htne, process_with_retry_default_err]

/-- Unfolding of `evaluate_cv` when the parsed evaluation is a dict holding
both `error` and `skills` keys (lines 100-112, the fallback-structure
branch). -/
theorem evaluate_cv_warning (w : Weights) (jd reply t : String) (cv : CvData)
    (fields : List (String × Json))
    (hcv : cv.error = none) (ht : cv.full_text = some t) (htne : t ≠ "")
    (hp : parse_json_response (GenResult.success reply) = Json.obj fields)
    (herr : (fields.find? (fun p => p.1 == "error")).isSome = true)
    (hsk : (fields.find? (fun p => p.1 == "skills")).isSome = true) :
    evaluate_cv w (Except.ok reply) jd cv =
      ⟨cv.filename.getD "Unknown",
       calculate_weighted_score w (Json.obj (eraseField fields "error")),
       some (Json.obj (eraseField fields "error")), none,
       some (jsonShow ((lookupField fields "error").getD Json.null)),
       some reply, none⟩ := by
  simp only [evaluate_cv, hcv, ht]
  rw [if_neg htne, process_with_retry_default_ok]
  simp only [hp, pyInStr, herr, hsk, eq_self_iff_true, if_true]

/-- C3: a CV whose non-empty reply defeats every parse strategy comes back
as a `Warning`: non-null zero-filled evaluation record, score computed from
that fallback record, non-null diagnostic; whereas a CV whose API call fails
(exhausting the wrapper) comes back `Failed`: null evaluation, score 0.  The
two outcomes (and clean `Success`) are distinct. -/
theorem evaluate_cv_warning_vs_failed (w : Weights) (jd reply msg t : String)
    (cv : CvData) (hcv : cv.error = none) (ht : cv.full_text = some t)
    (htne : t ≠ "") (hrne : reply ≠ "") (hfail : strategiesFail reply = true) :
    (statusOf (evaluate_cv w (Except.ok reply) jd cv) = Status.Warning
      ∧ (∃ E, (evaluate_cv w (Except.ok reply) jd cv).evaluation = some E
          ∧ zeroFilledRecord E = true
          ∧ (evaluate_cv w (Except.ok reply) jd cv).score =
              calculate_weighted_score w E)
      ∧ (evaluate_cv w (Except.ok reply) jd cv).warning.isSome = true)
    ∧ (statusOf (evaluate_cv w (Except.error msg) jd cv) = Status.Failed
      ∧ (evaluate_cv w (Except.error msg) jd cv).evaluation = none
      ∧ (evaluate_cv w (Except.error msg) jd cv).score = 0) := by
  constructor
  · rcases parseContent_fallback reply hrne hfail with hp | hp
    · rw [evaluate_cv_warning w jd reply t cv exnFields hcv ht htne hp rfl rfl]
      exact ⟨rfl, ⟨Json.obj (eraseField exnFields "error"), rfl, rfl, rfl⟩, rfl⟩
    · rw [evaluate_cv_warning w jd reply t cv (allFailFields reply) hcv ht htne
        hp rfl rfl]
      exact ⟨rfl, ⟨Json.obj (eraseField (allFailFields reply) "error"), rfl, rfl,
        rfl⟩, rfl⟩
  · rw [evaluate_cv_api_error w jd msg t cv hcv ht htne]
    exact ⟨rfl, rfl, rfl⟩

/-- Witness for C3: an unparseable reply vs an API failure on a concrete
CV. -/
theorem evaluate_cv_warning_vs_failed_witness :
    (statusOf (evaluate_cv WEIGHTS (Except.ok "mangled &&& output") "jd"
        ⟨some "cv1.pdf", none, some "cv text"⟩) = Status.Warning
      ∧ (∃ E, (evaluate_cv WEIGHTS (Except.ok "mangled &&& output") "jd"
            ⟨some "cv1.pdf", none, some "cv text"⟩).evaluation = some E
          ∧ zeroFilledRecord E = true
          ∧ (evaluate_cv WEIGHTS (Except.ok "mangled &&& output") "jd"
              ⟨some "cv1.pdf", none, some "cv text"⟩).score =
              calculate_weighted_score WEIGHTS E)
      ∧ (evaluate_cv WEIGHTS (Except.ok "mangled &&& output") "jd"
          ⟨some "cv1.pdf", none, some "cv text"⟩).warning.isSome = true)
    ∧ (statusOf (evaluate_cv WEIGHTS (Except.error "rate limited") "jd"
        ⟨some "cv1.pdf", none, some "cv text"⟩) = Status.Failed
      ∧ (evaluate_cv WEIGHTS (Except.error "rate limited") "jd"
          ⟨some "cv1.pdf", none, some "cv text"⟩).evaluation = none
      ∧ (evaluate_cv WEIGHTS (Except.error "rate limited") "jd"
          ⟨some "cv1.pdf", none, some "cv text"⟩).score = 0) :=
  evaluate_cv_warning_vs_failed WEIGHTS "jd" "mangled &&& output" "rate limited"
    "cv text" ⟨some "cv1.pdf", none, some "cv text"⟩ rfl rfl (by decide)
    (by decide) (by decide)

/-! ### C4 and C9: ranking -/

/-- Every branch of `evaluate_cv` reports the document's filename
(default "Unknown"). -/
theorem evaluate_cv_filename (w : Weights) (api : Except String String)
    (jd : String) (cv : CvData) :
    (evaluate_cv w api jd cv).filename = cv.filename.getD "Unknown" := by
  rcases cv with ⟨fn, er, ft⟩
  rcases api with reply | msg <;> cases er <;> cases ft <;>
    simp only [evaluate_cv, process_with_retry_default_ok,
      process_with_retry_default_err, outerExceptResult] <;>
    (repeat' split) <;> rfl

/-- Inserting a position-tagged result whose tag is smaller than every tag in
the list inserts at the position the untagged comparator chooses. -/
theorem orderedInsert_snd_eq (a : CvResult) (n : Nat)
    (L : List (Nat × CvResult)) (hL : ∀ q ∈ L, n < q.1) :
    (List.orderedInsert specTieRel (n, a) L).map Prod.snd
      = List.orderedInsert scoreGE a (L.map Prod.snd) := by
  induction L with
  | nil => rfl
  | cons q L ih =>
    have hq : n < q.1 := hL q (List.mem_cons_self q L)
    have hiff : specTieRel (n, a) q ↔ scoreGE a q.2 := by
      unfold specTieRel scoreGE
      constructor
      · rintro (h | ⟨h, _⟩)
        · exact le_of_lt h
        · exact le_of_eq h.symm
      · intro h
        rcases lt_or_eq_of_le h with h2 | h2
        · exact Or.inl h2
        · exact Or.inr ⟨h2.symm, le_of_lt hq⟩
    simp only [List.orderedInsert, List.map_cons]
    by_cases hc : specTieRel (n, a) q
    · rw [if_pos hc, if_pos (hiff.mp hc)]
      simp
    · rw [if_neg hc, if_neg (fun h => hc (hiff.mpr h))]
      simp only [List.map_cons]
      rw [ih (fun p hp => hL p (List.mem_cons_of_mem q hp))]

/-- The code's stable sort equals the spec's tie-broken sort of the
position-tagged list: stability. -/
theorem insertionSort_stable_spec :
    ∀ (l : List CvResult) (n : Nat),
      (List.insertionSort specTieRel (l.enumFrom n)).map Prod.snd
        = List.insertionSort scoreGE l := by
  intro l
  induction l with
  | nil => intro n; rfl
  | cons a l ih =>
    intro n
    show (List.insertionSort specTieRel ((n, a) :: l.enumFrom (n + 1))).map
        Prod.snd = _
    simp only [List.insertionSort]
    rw [orderedInsert_snd_eq a n _ ?hmem, ih (n + 1)]
    case hmem =>
      intro q hq
      have hmem2 : q ∈ l.enumFrom (n + 1) :=
        (List.perm_insertionSort specTieRel (l.enumFrom (n + 1))).mem_iff.mp hq
      rcases q with ⟨i, x⟩
      have := List.le_fst_of_mem_enumFrom hmem2
      omega

theorem code_sort_eq_spec (l : List CvResult) :
    List.insertionSort scoreGE l = specStableDescSort l :=
  (insertionSort_stable_spec l 0).symm

/-- Flattening the `BATCH_SIZE` chunks gives back the input list. -/
theorem chunksOfAux_flatten (n : Nat) (hn : 0 < n) :
    ∀ (fuel : Nat) (l : List CvData), l.length ≤ fuel →
      (chunksOfAux n fuel l).flatten = l := by
  intro fuel
  induction fuel with
  | zero =>
    intro l h
    have : l = [] := List.eq_nil_of_length_eq_zero (Nat.le_zero.mp h)
    subst this
    rfl
  | succ fuel ih =>
    intro l h
    match l with
    | [] => rfl
    | x :: xs =>
      show ((x :: xs).take n :: chunksOfAux n fuel ((x :: xs).drop n)).flatten
          = x :: xs
      rw [List.flatten_cons]
      rw [ih _ (by simp only [List.length_drop, List.length_cons]; simp at h; omega)]
      exact List.take_append_drop n (x :: xs)

/-- The batched evaluation collects exactly one result per input document,
in input order. -/
theorem batched_results_eq_map (w : Weights)
    (oracle : CvData → Except String String) (jd : String)
    (cvs : List CvData) :
    ((chunksOf BATCH_SIZE cvs).map (batch_process w oracle jd)).flatten
      = cvs.map (fun cv => evaluate_cv w (oracle cv) jd cv) := by
  unfold chunksOf batch_process
  rw [← List.map_flatten]
  rw [chunksOfAux_flatten BATCH_SIZE (by decide) cvs.length cvs le_rfl]

theorem addRanks_length (l : List CvResult) : (addRanks l).length = l.length := by
  simp [addRanks]

theorem addRanks_map_rank (l : List CvResult) :
    (addRanks l).map (fun r => r.rank)
      = (List.range l.length).map (fun i => some (i + 1)) := by
  unfold addRanks
  rw [List.map_map]
  have h1 : ((fun r : CvResult => r.rank)
      ∘ fun p : Nat × CvResult => { p.2 with rank := some (p.1 + 1) })
      = ((fun i => some (i + 1)) ∘ Prod.fst) := rfl
  rw [h1, ← List.map_map, List.enum_map_fst]

theorem addRanks_map_filename (l : List CvResult) :
    (addRanks l).map (fun r => r.filename) = l.map (fun r => r.filename) := by
  unfold addRanks
  rw [List.map_map]
  have h1 : ((fun r : CvResult => r.filename)
      ∘ fun p : Nat × CvResult => { p.2 with rank := some (p.1 + 1) })
      = ((fun r : CvResult => r.filename) ∘ Prod.snd) := rfl
  rw [h1, ← List.map_map, List.enum_map_snd]

theorem addRanks_pairwise_score (l : List CvResult)
    (h : List.Pairwise (fun a b : CvResult => b.score ≤ a.score) l) :
    List.Pairwise (fun a b : CvResult => b.score ≤ a.score) (addRanks l) := by
  unfold addRanks
  rw [List.pairwise_map]
  rw [← List.enum_map_snd l, List.pairwise_map] at h
  exact h

/-- C4: for every job description and input sequence, `rank_cvs` returns the
complete result set sorted by weighted score in non-increasing order, ties
preserving the original input order (the stable spec sort), and assigns
`rank = index + 1` over the sorted sequence. -/
theorem rank_cvs_sorted_stable_ranked (w : Weights)
    (oracle : CvData → Except String String) (jd : String)
    (cvs : List CvData) :
    rank_cvs w oracle jd cvs =
        addRanks (specStableDescSort
          (cvs.map (fun cv => evaluate_cv w (oracle cv) jd cv)))
      ∧ List.Pairwise (fun a b : CvResult => b.score ≤ a.score)
          (rank_cvs w oracle jd cvs)
      ∧ (rank_cvs w oracle jd cvs).map (fun r => r.rank)
          = (List.range (rank_cvs w oracle jd cvs).length).map
              (fun i => some (i + 1)) := by
  refine ⟨?_, ?_, ?_⟩
  · unfold rank_cvs
    rw [batched_results_eq_map, code_sort_eq_spec]
  · unfold rank_cvs
    apply addRanks_pairwise_score
    exact List.sorted_insertionSort scoreGE
      (((chunksOf BATCH_SIZE cvs).map (batch_process w oracle jd)).flatten)
  · unfold rank_cvs
    rw [addRanks_map_rank, addRanks_length]

/-- C9: the ranked output has exactly one entry per input document, and the
output filenames are a permutation of the input filenames (no document is
dropped; each occurrence appears exactly once). -/
theorem rank_cvs_complete (w : Weights)
    (oracle : CvData → Except String String) (jd : String)
    (cvs : List CvData) :
    (rank_cvs w oracle jd cvs).length = cvs.length
      ∧ List.Perm ((rank_cvs w oracle jd cvs).map (fun r => r.filename))
          (cvs.map (fun cv => cv.filename.getD "Unknown")) := by
  constructor
  · unfold rank_cvs
    rw [addRanks_length,
      (List.perm_insertionSort scoreGE _).length_eq, batched_results_eq_map,
      List.length_map]
  · unfold rank_cvs
    rw [addRanks_map_filename]
    have hperm := (List.perm_insertionSort scoreGE
      (((chunksOf BATCH_SIZE cvs).map (batch_process w oracle jd)).flatten)).map
      (fun r : CvResult => r.filename)
    apply hperm.trans
    rw [batched_results_eq_map, List.map_map]
    apply List.Perm.of_eq
    apply List.map_congr_left
    intro cv _
    exact evaluate_cv_filename w (oracle cv) jd cv

/-! ### C8: the ranking report -/

/-- `status ≠ Failed` is exactly "no error key". -/
theorem statusOf_ne_failed_iff (r : CvResult) :
    decide (statusOf r ≠ Status.Failed) = r.error.isNone := by
  rcases r with ⟨fn, sc, ev, er, wa, raw, rk⟩
  cases er <;> cases wa <;> simp [statusOf]

/-- `status = Failed` is exactly "error key present". -/
theorem statusOf_eq_failed_iff (r : CvResult) :
    decide (statusOf r = Status.Failed) = r.error.isSome := by
  rcases r with ⟨fn, sc, ev, er, wa, raw, rk⟩
  cases er <;> cases wa <;> simp [statusOf]

/-- C8 (amended): the report counts totals, successes (`status ∈
{Success, Warning}`) and failures, averages the weighted scores over all
results (failed entries contributing 0) divided by the total count with 0 for
the empty list; but its top-candidate list is the non-failed entries *among
the first five ranked results*, not the first five non-failed entries.  The
hypothesis — failed results carry score 0 — is an invariant of every result
`evaluate_cv` produces. -/
theorem generate_ranking_report_aggregates (results : List CvResult)
    (h0 : ∀ r ∈ results, r.error.isSome → r.score = 0) :
    (generate_ranking_report results).total_cvs = results.length
    ∧ (generate_ranking_report results).successful_evaluations
        = (results.filter (fun r => decide (statusOf r ≠ Status.Failed))).length
    ∧ (generate_ranking_report results).failed_evaluations
        = (results.filter (fun r => decide (statusOf r = Status.Failed))).length
    ∧ (results = [] → (generate_ranking_report results).average_score = 0)
    ∧ (results ≠ [] → (generate_ranking_report results).average_score
        = (results.map
            (fun r => if statusOf r = Status.Failed then 0 else r.score)).sum
          / (results.length : ℚ))
    ∧ (generate_ranking_report results).top_candidates
        = (results.take 5).filter (fun r => decide (statusOf r ≠ Status.Failed)) := by
  refine ⟨rfl, ?_, ?_, ?_, ?_, ?_⟩
  · show (results.filter (fun r => r.error.isNone)).length = _
    congr 1
    apply List.filter_congr
    intro r _
    exact (statusOf_ne_failed_iff r).symm
  · show (results.filter (fun r => r.error.isSome)).length = _
    congr 1
    apply List.filter_congr
    intro r _
    exact (statusOf_eq_failed_iff r).symm
  · intro h
    subst h
    simp [generate_ranking_report]
  · intro h
    show (results.map (fun r => r.score)).sum
        / ((max results.length 1 : Nat) : ℚ) = _
    have hlen : results.length ≠ 0 := fun hh => h (List.eq_nil_of_length_eq_zero hh)
    have hmax : max results.length 1 = results.length :=
      Nat.max_eq_left (Nat.one_le_iff_ne_zero.mpr hlen)
    rw [hmax]
    congr 1
    congr 1
    apply List.map_congr_left
    intro r hr
    by_cases hf : statusOf r = Status.Failed
    · rw [if_pos hf]
      have hsome : r.error.isSome = true := by
        rw [← statusOf_eq_failed_iff r]
        exact decide_eq_true hf
      exact h0 r hr hsome
    · rw [if_neg hf]
  · show (results.take 5).filter (fun r => r.error.isNone) = _
    apply List.filter_congr
    intro r _
    exact (statusOf_ne_failed_iff r).symm

/-- Witness for C8 (amended) on a concrete two-element ranked list. -/
theorem generate_ranking_report_aggregates_witness :
    (generate_ranking_report reportDemoResults).total_cvs = reportDemoResults.length
    ∧ (generate_ranking_report reportDemoResults).successful_evaluations
        = (reportDemoResults.filter
            (fun r => decide (statusOf r ≠ Status.Failed))).length
    ∧ (generate_ranking_report reportDemoResults).failed_evaluations
        = (reportDemoResults.filter
            (fun r => decide (statusOf r = Status.Failed))).length
    ∧ (reportDemoResults = [] →
        (generate_ranking_report reportDemoResults).average_score = 0)
    ∧ (reportDemoResults ≠ [] →
        (generate_ranking_report reportDemoResults).average_score
        = (reportDemoResults.map
            (fun r => if statusOf r = Status.Failed then 0 else r.score)).sum
          / (reportDemoResults.length : ℚ))
    ∧ (generate_ranking_report reportDemoResults).top_candidates
        = (reportDemoResults.take 5).filter
            (fun r => decide (statusOf r ≠ Status.Failed)) :=
  generate_ranking_report_aggregates reportDemoResults (by decide)

/-- Counterexample to C8 as stated: on this ranked list the report's
top-candidate list is empty, while the first five non-failed entries by rank
order consist of the (non-failed) rank-6 entry. -/
theorem generate_ranking_report_top5_counterexample :
    (generate_ranking_report rankedDemo).top_candidates.isEmpty = true
    ∧ ((rankedDemo.filter (fun r => decide (statusOf r ≠ Status.Failed))).take 5).map
        (fun r => r.rank) = [some 6]
    ∧ (rankedDemo.filter (fun r => decide (statusOf r ≠ Status.Failed))).length = 1 := by
  refine ⟨by decide, by decide, by decide⟩

end CvRank
